import Mathlib

/-!
Shallow embedding of `generate_homepage_from_content.py`: a one-shot build
script that reads a CSV of content rows, fetches oEmbed HTML for social
content, and substitutes the joined fragments into a page template.

Python effects are made explicit:
* `print` diagnostics become a `logs : List String` component;
* HTTP GET requests become a lookup in an environment `String → Response`,
  and the query paths actually requested are recorded in `gets`;
* uncaught Python exceptions become `Except PyErr`;
* Python `None`-or-`str` values become `Option String` (`pyStr` models the
  `str()` coercion applied by `%s` interpolation, which renders `None` as
  the literal text `"None"`).
-/

/-- Python exception kinds that the modelled code can raise. -/
inductive PyErr where
  /-- `ValueError`, with its message. -/
  | valueError (msg : String)
  /-- `TypeError`, with its message (raised by the `%` format operator). -/
  | typeError (msg : String)
  /-- `AttributeError` (e.g. calling `.replace` on `None`). -/
  | attributeError
  /-- `NameError` (referencing a local variable that was never assigned). -/
  | nameError
  /-- an exception escaping `json.loads(...)[key]`: malformed JSON body or
  missing key in a 200 response. -/
  | jsonError
  /-- `IOError` from `open()` on a path that is not a readable file. -/
  | ioError
deriving DecidableEq, Repr

/-- An HTTP response as seen through the `requests` library: the status code,
the raw body (`response.content`), and `htmlVal`, which models the value of
`json.loads(response.content)['html']` — `none` meaning that parsing the body
or the key lookup raises. -/
structure Response where
  status_code : Nat
  content : String
  htmlVal : Option String

/-- Result of running a modelled Python function: its value (or the uncaught
exception), the lines printed, and the HTTP query paths requested. -/
structure Eff (α : Type) where
  val : Except PyErr α
  logs : List String
  gets : List String
deriving Repr

/-- A row of the content CSV as produced by `csv.DictReader`: each recognized
column is `none` when the key is absent (`dict.get` returns `None`). -/
structure ContentRow where
  type : Option String
  url : Option String
  quote : Option String
deriving DecidableEq, Repr

/-- Models Python `str()` as applied by `%s` interpolation to a value that is
either a string or `None`. -/
def pyStr : Option String → String
  | none => "None"
  | some s => s

-- default filepaths
def DEFAULT_CONTENT_CSV_PATH : String := "./content.csv"
def DEFAULT_PAGE_TEMPLATE_PATH : String := "./index_template.html"
def DEFAULT_OUTFILE_PATH : String := "index.html"

-- CSV keys and accepted values
def CONTENT_TYPE_TWITTER : String := "twitter"
def CONTENT_TYPE_INSTAGRAM : String := "instagram"
def CONTENT_TYPE_WEBSITE : String := "website"
def CONTENT_TYPES : List String :=
  [CONTENT_TYPE_TWITTER, CONTENT_TYPE_INSTAGRAM, CONTENT_TYPE_WEBSITE]
def EMBEDDED_CONTENT_TYPES : List String :=
  [CONTENT_TYPE_TWITTER, CONTENT_TYPE_INSTAGRAM]

/-- Models the constant `CONTENT_CONTAINER = '<div class="content %s">%s</div>'`
applied to its two arguments. -/
def CONTENT_CONTAINER (cls body : String) : String :=
  "<div class=\"content " ++ cls ++ "\">" ++ body ++ "</div>"

/-- Models `WEBSITE_CONTENT_TEMPLATE =
'<span class="website-content">%s</span>\n<span class="website-url">%s</span>'`
applied to its two arguments (quote first, then url). -/
def WEBSITE_CONTENT_TEMPLATE (quote url : String) : String :=
  "<span class=\"website-content\">" ++ quote ++
    "</span>\n<span class=\"website-url\">" ++ url ++ "</span>"

/-- Models `TWITTER_OEMBED_ENDPOINT % encoded_url`. -/
def TWITTER_OEMBED_ENDPOINT (encoded_url : String) : String :=
  "https://publish.twitter.com/oembed?url=" ++ encoded_url

/-- Models `INSTAGRAM_OEMBED_ENDPOINT % url` (the source inserts the raw,
unencoded url here). -/
def INSTAGRAM_OEMBED_ENDPOINT (url : String) : String :=
  "https://api.instagram.com/oembed/?url=" ++ url

/-- UTF-8 byte values of a character (Python 2 `urllib.quote` operates on the
byte string). -/
def utf8Bytes (c : Char) : List Nat :=
  let n := c.toNat
  if n < 128 then [n]
  else if n < 2048 then [192 + n / 64, 128 + n % 64]
  else if n < 65536 then [224 + n / 4096, 128 + (n / 64) % 64, 128 + n % 64]
  else [240 + n / 262144, 128 + (n / 4096) % 64, 128 + (n / 64) % 64, 128 + n % 64]

/-- Bytes left unescaped by Python 2 `urllib.quote` with its default
`safe='/'`: letters, digits, and `_ . - /`. -/
def isQuoteSafe (n : Nat) : Bool :=
  (65 ≤ n && n ≤ 90) || (97 ≤ n && n ≤ 122) || (48 ≤ n && n ≤ 57) ||
    n == 95 || n == 46 || n == 45 || n == 47

/-- Uppercase hexadecimal digit for a value below 16. -/
def hexUpper (n : Nat) : Char :=
  if n < 10 then Char.ofNat (48 + n) else Char.ofNat (55 + n)

/-- Models Python 2 `urllib.quote(url)`: percent-encode every UTF-8 byte
outside the safe set, using uppercase hex. -/
def urllib_quote (s : String) : String :=
  String.mk ((s.data.flatMap utf8Bytes).flatMap (fun n =>
    if isQuoteSafe n then [Char.ofNat n]
    else ['%', hexUpper (n / 16), hexUpper (n % 16)]))

/-- Models `get_twitter_embed_code(url)`: GET the oEmbed endpoint for the
percent-encoded url; on a non-200 status print a diagnostic and return `None`
(the `if` branch falls through to the implicit `return None`); on 200 return
`json.loads(response.content)['html']`. -/
def get_twitter_embed_code (env : String → Response) (url : String) :
    Eff (Option String) :=
  let encoded_url := urllib_quote url
  let query_path := TWITTER_OEMBED_ENDPOINT encoded_url
  let response := env query_path
  if response.status_code ≠ 200 then
    ⟨.ok none,
     ["Request to Twitter oEmbed endpoint for content \"" ++ url ++
        "\" failed with status code " ++ toString response.status_code ++
        ", message " ++ response.content],
     [query_path]⟩
  else
    match response.htmlVal with
    | some h => ⟨.ok (some h), [], [query_path]⟩
    | none => ⟨.error .jsonError, [], [query_path]⟩

/-- Models `get_instagram_embed_code(url)`: like the Twitter fetcher but with
the raw url inserted into the endpoint and an explicit `return` (still `None`)
in the failure branch; its diagnostic ends with a period. -/
def get_instagram_embed_code (env : String → Response) (url : String) :
    Eff (Option String) :=
  let query_path := INSTAGRAM_OEMBED_ENDPOINT url
  let response := env query_path
  if response.status_code ≠ 200 then
    ⟨.ok none,
     ["Request to Instagram oEmbed endpoint for content \"" ++ url ++
        "\" failed with status code " ++ toString response.status_code ++
        ", message " ++ response.content ++ "."],
     [query_path]⟩
  else
    match response.htmlVal with
    | some h => ⟨.ok (some h), [], [query_path]⟩
    | none => ⟨.error .jsonError, [], [query_path]⟩

/-- Models `html_element_from_embedded_content(url, content_type)`: dispatch on
the content type to a fetcher, then wrap the returned embed code in the
container — note the source executes `CONTENT_CONTAINER % (content_type,
embed_code)` even when the fetcher returned `None`, in which case `%s`
interpolates the literal text `"None"`. An unexpected type raises
`ValueError`. -/
def html_element_from_embedded_content (env : String → Response)
    (url content_type : String) : Eff String :=
  if content_type = CONTENT_TYPE_TWITTER then
    let e := get_twitter_embed_code env url
    ⟨e.val.map (fun embed_code => CONTENT_CONTAINER content_type (pyStr embed_code)),
     e.logs, e.gets⟩
  else if content_type = CONTENT_TYPE_INSTAGRAM then
    let e := get_instagram_embed_code env url
    ⟨e.val.map (fun embed_code => CONTENT_CONTAINER content_type (pyStr embed_code)),
     e.logs, e.gets⟩
  else
    ⟨.error (.valueError ("Unexpected type " ++ content_type ++
       " (not an embedded content type). This should never happen in this func.)")),
     [], []⟩

/-- Models `html_element_from_website_content(url, quote)`: format the quote
and url (possibly `None`, interpolated by `%s` as `"None"`) into the two-line
website block and wrap it in the container tagged `website`. -/
def html_element_from_website_content (url quote : Option String) : String :=
  CONTENT_CONTAINER "website" (WEBSITE_CONTENT_TEMPLATE (pyStr quote) (pyStr url))

/-- Repr of an (`Option`-valued) string as Python prints it inside a dict. -/
def pyReprOpt : Option String → String
  | none => "None"
  | some s => "\x27" ++ s ++ "\x27"

/-- Models `'%s' % content_dict` in the skip messages: the repr of the row
dict. Key order of a Python 2 dict repr is unspecified; a fixed order is
chosen here (no theorem depends on it). -/
def reprRow (d : ContentRow) : String :=
  "\x7b\x27type\x27: " ++ pyReprOpt d.type ++ ", \x27url\x27: " ++
    pyReprOpt d.url ++ ", \x27quote\x27: " ++ pyReprOpt d.quote ++ "\x7d"

/-- A skipped row: value `None`, one diagnostic line, no network traffic. -/
def skipEff (msg : String) : Eff (Option String) := ⟨.ok none, [msg], []⟩

/-- Models `html_element_from_content(content_dict)`: the per-row dispatch of
the fragment builder. `if not content_type` is true for both an absent key and
an empty string; embedded types additionally require a non-empty url before
calling the fetcher; website rows are formatted without any presence
validation. If no branch assigned `elem`, the trailing `return elem` would
raise `NameError` (unreachable). -/
def html_element_from_content (env : String → Response) (content_dict : ContentRow) :
    Eff (Option String) :=
  match content_dict.type with
  | none =>
      skipEff ("No content type provided for entry: \"" ++ reprRow content_dict ++
        "\". Skipping.")
  | some content_type =>
      if content_type = "" then
        skipEff ("No content type provided for entry: \"" ++ reprRow content_dict ++
          "\". Skipping.")
      else if content_type ∉ CONTENT_TYPES then
        skipEff ("Unrecognized content type (\"" ++ content_type ++
          "\") in entry: \"" ++ reprRow content_dict ++ "\". Skipping.")
      else if content_type ∈ EMBEDDED_CONTENT_TYPES then
        match content_dict.url with
        | none =>
            skipEff ("No url provided for entry: \"" ++ reprRow content_dict ++
              "\". Skipping.")
        | some url =>
            if url = "" then
              skipEff ("No url provided for entry: \"" ++ reprRow content_dict ++
                "\". Skipping.")
            else
              let e := html_element_from_embedded_content env url content_type
              ⟨e.val.map some, e.logs, e.gets⟩
      else if content_type = CONTENT_TYPE_WEBSITE then
        ⟨.ok (some (html_element_from_website_content content_dict.url content_dict.quote)),
         [], []⟩
      else
        ⟨.error .nameError, [], []⟩

/-- Models the per-row loop of `main` (lines 174-178): every `elem` — present
or `None` — is appended to `html_elements_to_add`; an exception escaping a row
aborts the loop (and the run). -/
def processRows (env : String → Response) : List ContentRow → Eff (List (Option String))
  | [] => ⟨.ok [], [], []⟩
  | row :: rest =>
      let e := html_element_from_content env row
      match e.val with
      | .error err => ⟨.error err, e.logs, e.gets⟩
      | .ok elem =>
          let r := processRows env rest
          ⟨r.val.map (fun tl => elem :: tl), e.logs ++ r.logs, e.gets ++ r.gets⟩

/-- Models `elem.replace('%', '%%')`: double every percent character. -/
def pctEscape (s : String) : String :=
  String.mk (s.data.flatMap (fun c => if c = '%' then ['%', '%'] else [c]))

/-- Models the list comprehension `[elem.replace('%', '%%') for elem in
html_elements_to_add]`: evaluated left to right, raising `AttributeError` at
the first `None` element (`None` has no `.replace`). -/
def escapeAll : List (Option String) → Except PyErr (List String)
  | [] => .ok []
  | none :: _ => .error .attributeError
  | some s :: rest => (escapeAll rest).map (fun tl => pctEscape s :: tl)

/-- Models the Python 2 `%` string-format operator applied to a single string
argument (`format_string % arg`), character by character: `%s` inserts the
argument verbatim (exactly once — a second `%s` raises `TypeError`), `%%`
emits a literal percent, any other directive raises, and a format string that
never consumes the argument raises `TypeError`. -/
def fmtAux : List Char → List Char → Bool → Except PyErr (List Char)
  | [], _, used =>
      if used then .ok []
      else .error (.typeError "not all arguments converted during string formatting")
  | c :: cs1, arg, used =>
      if c = '%' then
        match cs1 with
        | [] => .error (.valueError "incomplete format")
        | c2 :: cs2 =>
            if c2 = 's' then
              if used then .error (.typeError "not enough arguments for format string")
              else (fmtAux cs2 arg true).map (fun t => arg ++ t)
            else if c2 = '%' then
              (fmtAux cs2 arg used).map (fun t => '%' :: t)
            else .error (.valueError "unsupported format character")
      else
        (fmtAux cs1 arg used).map (fun t => c :: t)

/-- Models `page_template % html_to_insert`. -/
def pythonFormatS (format_string arg : String) : Except PyErr String :=
  (fmtAux format_string.data arg.data false).map String.mk

/-- Models lines 183-184 of `main`: escape each element (raising
`AttributeError` on a `None`), join with a blank line, and substitute into the
template. -/
def assemble_page (page_template : String) (html_elements_to_add : List (Option String)) :
    Except PyErr String :=
  match escapeAll html_elements_to_add with
  | .error e => .error e
  | .ok escaped => pythonFormatS page_template (String.intercalate "\n\n" escaped)

/-- Parsed command-line arguments: each flag is `None` when not supplied. -/
structure Args where
  content_csv : Option String
  page_template : Option String
  outfile : Option String

/-- The external world: HTTP responses per query path, file contents per path
(`none` when the path is not a readable regular file, for both
`os.path.isfile` and `open`), and the rows `csv.DictReader` yields for the
file at a path (modelling `content_from_csv`). -/
structure World where
  fetch : String → Response
  files : String → Option String
  csvRows : String → List ContentRow

/-- Models `content_from_csv(filepath)` =
`list(csv.DictReader(open(filepath)))`. -/
def content_from_csv (w : World) (filepath : String) : List ContentRow :=
  w.csvRows filepath

/-- Outcome of a run of `main`. -/
inductive RunResult where
  /-- `sys.exit(1)` from `validate_filepath`. -/
  | exitError
  /-- an uncaught Python exception aborted the run. -/
  | exception (e : PyErr)
  /-- the page was written to the given path. -/
  | success (outfile_path : String) (page : String)
deriving DecidableEq, Repr

/-- Models `main()`. Note the faithful rendering of lines 164-168: when
`--outfile` is supplied the source assigns it to `page_template_filepath`
(so the template is later read from the outfile path), and the local
`outfile_filepath` is only ever assigned in the `else` branch — referencing
it at the final write raises `NameError` when the flag was given. -/
def main_run (w : World) (args : Args) : RunResult :=
  let content_csv_filepath :=
    match args.content_csv with
    | some p => p
    | none => DEFAULT_CONTENT_CSV_PATH
  if (w.files content_csv_filepath).isNone then .exitError
  else
    let tpl :=
      match args.page_template with
      | some p => p
      | none => DEFAULT_PAGE_TEMPLATE_PATH
    if (w.files tpl).isNone then .exitError
    else
      let page_template_filepath :=
        match args.outfile with
        | some o => o
        | none => tpl
      let outfile_filepath : Option String :=
        match args.outfile with
        | some _ => none
        | none => some DEFAULT_OUTFILE_PATH
      let content := content_from_csv w content_csv_filepath
      let processed := processRows w.fetch content
      match processed.val with
      | .error e => .exception e
      | .ok html_elements_to_add =>
          match w.files page_template_filepath with
          | none => .exception .ioError
          | some page_template =>
              match assemble_page page_template html_elements_to_add with
              | .error e => .exception e
              | .ok generated_page =>
                  match outfile_filepath with
                  | none => .exception .nameError
                  | some op => .success op generated_page

/-! ### Helper lemmas about the `%` format operator and the assembler -/

/-- Once the single argument has been consumed, a remainder free of percent
characters is copied verbatim. -/
theorem fmtAux_no_pct (post : List Char) (arg : List Char) (h : '%' ∉ post) :
    fmtAux post arg true = .ok post := by
  induction post with
  | nil => rfl
  | cons c cs ih =>
      have hc : c ≠ '%' := fun e => h (e ▸ List.mem_cons_self c cs)
      rw [fmtAux.eq_def]
      simp only [if_neg hc, ih (fun m => h (List.mem_cons_of_mem c m))]
      rfl

/-- A format string that is `pre ++ "%s" ++ post` with percent-free `pre` and
`post` formats to `pre ++ arg ++ post`. -/
theorem fmtAux_one_s (pre post arg : List Char) (hpre : '%' ∉ pre)
    (hpost : '%' ∉ post) :
    fmtAux (pre ++ '%' :: 's' :: post) arg false = .ok (pre ++ arg ++ post) := by
  induction pre with
  | nil =>
      rw [List.nil_append, fmtAux.eq_def]
      simp only [if_pos rfl, Bool.false_eq_true, if_false]
      rw [fmtAux_no_pct post arg hpost]
      rfl
  | cons c cs ih =>
      have hc : c ≠ '%' := fun e => hpre (e ▸ List.mem_cons_self c cs)
      rw [List.cons_append, fmtAux.eq_def]
      simp only [if_neg hc, ih (fun m => hpre (List.mem_cons_of_mem c m))]
      rfl

/-- String-level version of `fmtAux_one_s`. -/
theorem pythonFormatS_split (pre post arg : String) (hpre : '%' ∉ pre.data)
    (hpost : '%' ∉ post.data) :
    pythonFormatS (pre ++ "%s" ++ post) arg = .ok (pre ++ arg ++ post) := by
  unfold pythonFormatS
  have hd : (pre ++ "%s" ++ post).data = pre.data ++ '%' :: 's' :: post.data := by
    simp [String.data_append]
  rw [hd, fmtAux_one_s pre.data post.data arg.data hpre hpost]
  show Except.ok (String.mk (pre.data ++ arg.data ++ post.data)) = _
  rcases pre with ⟨a⟩
  rcases arg with ⟨b⟩
  rcases post with ⟨c⟩
  rfl

/-- On a list of present fragments the comprehension of line 183 succeeds and
escapes each fragment. -/
theorem escapeAll_map_some (frags : List String) :
    escapeAll (frags.map some) = .ok (frags.map pctEscape) := by
  induction frags with
  | nil => rfl
  | cons f fs ih => rw [List.map_cons, escapeAll, ih]; rfl

/-! ### Helper lemmas about the fetchers and the dispatch -/

/-- Possible values of the Twitter fetcher: `None` (non-200), the html string
(200 with a well-formed body), or an escaping JSON exception. -/
theorem get_twitter_val_shape (env : String → Response) (url : String) :
    (get_twitter_embed_code env url).val = .ok none ∨
    (∃ h, (get_twitter_embed_code env url).val = .ok (some h)) ∨
    (get_twitter_embed_code env url).val = .error .jsonError := by
  simp only [get_twitter_embed_code]
  split
  · exact Or.inl rfl
  · split
    · next h2 _ => exact Or.inr (Or.inl ⟨_, rfl⟩)
    · exact Or.inr (Or.inr rfl)

/-- Possible values of the Instagram fetcher. -/
theorem get_instagram_val_shape (env : String → Response) (url : String) :
    (get_instagram_embed_code env url).val = .ok none ∨
    (∃ h, (get_instagram_embed_code env url).val = .ok (some h)) ∨
    (get_instagram_embed_code env url).val = .error .jsonError := by
  simp only [get_instagram_embed_code]
  split
  · exact Or.inl rfl
  · split
    · next h2 _ => exact Or.inr (Or.inl ⟨_, rfl⟩)
    · exact Or.inr (Or.inr rfl)

/-- Called with an embedded content type, the dispatch in
`html_element_from_embedded_content` reaches a fetcher, whose result never is
a `ValueError`. -/
theorem embedded_content_no_valueError (env : String → Response)
    (url ct m : String) (h : ct ∈ EMBEDDED_CONTENT_TYPES) :
    (html_element_from_embedded_content env url ct).val ≠
      .error (.valueError m) := by
  have h2 : ct = CONTENT_TYPE_TWITTER ∨ ct = CONTENT_TYPE_INSTAGRAM := by
    simpa [EMBEDDED_CONTENT_TYPES] using h
  rcases h2 with h2 | h2 <;> subst h2
  · simp only [html_element_from_embedded_content, if_pos rfl]
    rcases get_twitter_val_shape env url with hv | ⟨x, hv⟩ | hv <;>
      simp [hv, Except.map]
  · have hne : ¬ (CONTENT_TYPE_INSTAGRAM = CONTENT_TYPE_TWITTER) := by decide
    simp only [html_element_from_embedded_content, if_neg hne, if_pos rfl]
    rcases get_instagram_val_shape env url with hv | ⟨x, hv⟩ | hv <;>
      simp [hv, Except.map]

/-! ### Concrete environments used in counterexamples and witnesses -/

/-- An API that answers every request with a 404 and body `"not found"`. -/
def envFail404 : String → Response := fun _ => ⟨404, "not found", none⟩

/-- World for exercising the skipped-row path: one twitter row with an empty
url, a valid template. -/
def wSkipRow : World :=
  { fetch := envFail404,
    files := fun p =>
      if p = "c.csv" then some "" else
      if p = "t.html" then some "<html>%s</html>" else none,
    csvRows := fun p =>
      if p = "c.csv" then [⟨some "twitter", some "", some ""⟩] else [] }

/-- World holding the two example rows of the spec (a website row and a row of
unrecognized type `foo`) at the default paths, with the template
`"<html>%s</html>"`. -/
def wExample : World :=
  { fetch := envFail404,
    files := fun p =>
      if p = "./content.csv" then some "" else
      if p = "./index_template.html" then some "<html>%s</html>" else none,
    csvRows := fun p =>
      if p = "./content.csv" then
        [⟨some "website", some "http://a.com", some "Great!"⟩,
         ⟨some "foo", some "x", none⟩]
      else [] }

/-- World where the path given to the outfile flag exists as a readable file
(content `"X%sY"`). -/
def wOutfileExists : World :=
  { fetch := envFail404,
    files := fun p =>
      if p = "c.csv" then some "" else
      if p = "t.html" then some "TPL%s" else
      if p = "out.html" then some "X%sY" else none,
    csvRows := fun _ => [] }

/-- World where the path given to the outfile flag is not a readable file
while the declared template path is. -/
def wOutfileMissing : World :=
  { fetch := envFail404,
    files := fun p =>
      if p = "c.csv" then some "" else
      if p = "t.html" then some "TPL%s" else none,
    csvRows := fun _ => [] }

/-- World with an empty row table and the template `"%s"` at every path. -/
def wEmptyTable : World :=
  { fetch := envFail404, files := fun _ => some "%s", csvRows := fun _ => [] }

/-! ### Claims -/

/-- Claim C1 (code bug): the claim states that rows whose fragment is absent
are dropped before assembly, contribute nothing, and never abort the run. In
the source every per-row result — including `None` — is appended to
`html_elements_to_add` (line 178), and line 183 then calls `.replace` on each
element, so any run containing a skipped row aborts with `AttributeError`: on
a table holding a single twitter row with an empty url, the run raises
instead of producing a page. -/
theorem claim_C1_crash :
    main_run wSkipRow ⟨some "c.csv", some "t.html", none⟩ =
      .exception .attributeError := by
  decide

/-- Claim C2 (counterexample): the claim states that when the matching embed
fetcher returns absent the row's fragment is absent and no container wrapping
a placeholder is produced. On a twitter row with url `"u"` against an API
answering 404, the fetcher returns `None` yet the fragment builder produces
the container `<div class="content twitter">None</div>` wrapping the literal
text `None`. -/
theorem claim_C2_counterexample :
    (html_element_from_content envFail404 ⟨some "twitter", some "u", none⟩).val =
      .ok (some "<div class=\"content twitter\">None</div>") ∧
    (html_element_from_content envFail404 ⟨some "twitter", some "u", none⟩).val ≠
      .ok none :=
  ⟨rfl, fun hc => Option.noConfusion (Except.ok.inj hc)⟩

/-- Claim C2 (amended): for every row of embedded type with a non-empty url,
if the matching embed fetcher returns absent then the fragment is present and
equal to the container tagged with the content type wrapping the literal text
`"None"` (the `str(None)` interpolation) — absence does not propagate. -/
theorem claim_C2_amended (env : String → Response) (url : String) :
    ((get_twitter_embed_code env url).val = .ok none →
      (html_element_from_embedded_content env url CONTENT_TYPE_TWITTER).val =
        .ok (CONTENT_CONTAINER CONTENT_TYPE_TWITTER "None")) ∧
    ((get_instagram_embed_code env url).val = .ok none →
      (html_element_from_embedded_content env url CONTENT_TYPE_INSTAGRAM).val =
        .ok (CONTENT_CONTAINER CONTENT_TYPE_INSTAGRAM "None")) := by
  constructor
  · intro h
    simp only [html_element_from_embedded_content, if_pos rfl]
    rw [h]
    rfl
  · intro h
    have hne : ¬ (CONTENT_TYPE_INSTAGRAM = CONTENT_TYPE_TWITTER) := by decide
    simp only [html_element_from_embedded_content, if_neg hne, if_pos rfl]
    rw [h]
    rfl

/-- Witness for the amended claim C2 at a concrete failing API. -/
theorem claim_C2_amended_witness :
    (html_element_from_embedded_content envFail404 "u" CONTENT_TYPE_TWITTER).val =
      .ok (CONTENT_CONTAINER CONTENT_TYPE_TWITTER "None") :=
  (claim_C2_amended envFail404 "u").1 rfl

/-- Claim C3: each embed fetcher returns the string value of the JSON
response's `html` key when the HTTP status is 200 (and the body parses with
that key present), and returns absent after printing a diagnostic containing
the content URL, the status code and the response body when the status is
anything other than 200. -/
theorem claim_C3 (env : String → Response) (url : String) :
    ((env (TWITTER_OEMBED_ENDPOINT (urllib_quote url))).status_code ≠ 200 →
      (get_twitter_embed_code env url).val = .ok none ∧
      (get_twitter_embed_code env url).logs =
        ["Request to Twitter oEmbed endpoint for content \"" ++ url ++
          "\" failed with status code " ++
          toString (env (TWITTER_OEMBED_ENDPOINT (urllib_quote url))).status_code ++
          ", message " ++
          (env (TWITTER_OEMBED_ENDPOINT (urllib_quote url))).content]) ∧
    (∀ h, (env (TWITTER_OEMBED_ENDPOINT (urllib_quote url))).status_code = 200 →
      (env (TWITTER_OEMBED_ENDPOINT (urllib_quote url))).htmlVal = some h →
      (get_twitter_embed_code env url).val = .ok (some h)) ∧
    ((env (INSTAGRAM_OEMBED_ENDPOINT url)).status_code ≠ 200 →
      (get_instagram_embed_code env url).val = .ok none ∧
      (get_instagram_embed_code env url).logs =
        ["Request to Instagram oEmbed endpoint for content \"" ++ url ++
          "\" failed with status code " ++
          toString (env (INSTAGRAM_OEMBED_ENDPOINT url)).status_code ++
          ", message " ++ (env (INSTAGRAM_OEMBED_ENDPOINT url)).content ++ "."]) ∧
    (∀ h, (env (INSTAGRAM_OEMBED_ENDPOINT url)).status_code = 200 →
      (env (INSTAGRAM_OEMBED_ENDPOINT url)).htmlVal = some h →
      (get_instagram_embed_code env url).val = .ok (some h)) := by
  refine ⟨fun hne => ⟨?_, ?_⟩, fun h h200 hh => ?_, fun hne => ⟨?_, ?_⟩,
    fun h h200 hh => ?_⟩
  · simp only [get_twitter_embed_code]; rw [if_pos hne]
  · simp only [get_twitter_embed_code]; rw [if_pos hne]
  · simp only [get_twitter_embed_code]
    rw [if_neg (fun hn => hn h200), hh]
  · simp only [get_instagram_embed_code]; rw [if_pos hne]
  · simp only [get_instagram_embed_code]; rw [if_pos hne]
  · simp only [get_instagram_embed_code]
    rw [if_neg (fun hn => hn h200), hh]

/-- Witness for claim C3: with an API answering 404 everywhere, both fetchers
return absent. -/
theorem claim_C3_witness :
    (get_twitter_embed_code envFail404 "u").val = .ok none ∧
    (get_instagram_embed_code envFail404 "u").val = .ok none :=
  ⟨((claim_C3 envFail404 "u").1 (by decide)).1,
   ((claim_C3 envFail404 "u").2.2.1 (by decide)).1⟩

/-- Claim C4: a row of embedded type (twitter or instagram) whose url field is
absent or empty yields no fragment, and no HTTP GET is issued for that row. -/
theorem claim_C4 (env : String → Response) (d : ContentRow)
    (ht : d.type = some CONTENT_TYPE_TWITTER ∨ d.type = some CONTENT_TYPE_INSTAGRAM)
    (hu : d.url = none ∨ d.url = some "") :
    (html_element_from_content env d).val = .ok none ∧
    (html_element_from_content env d).gets = [] := by
  rcases ht with ht | ht <;> rcases hu with hu | hu <;>
    simp +decide [html_element_from_content, ht, hu, skipEff,
      CONTENT_TYPE_TWITTER, CONTENT_TYPE_INSTAGRAM, CONTENT_TYPES,
      EMBEDDED_CONTENT_TYPES]

/-- Witness for claim C4 on a twitter row with no url key. -/
theorem claim_C4_witness :
    (html_element_from_content envFail404
      ⟨some CONTENT_TYPE_TWITTER, none, none⟩).val = .ok none ∧
    (html_element_from_content envFail404
      ⟨some CONTENT_TYPE_TWITTER, none, none⟩).gets = [] :=
  claim_C4 envFail404 ⟨some CONTENT_TYPE_TWITTER, none, none⟩ (Or.inl rfl)
    (Or.inl rfl)

/-- Claim C5: every row of type website yields a fragment holding the quote
text then the url text in the fixed two-line layout, wrapped in the container
tagged `website`; no presence validation is applied and absent values are
interpolated as the literal text `"None"` rather than causing a skip (and no
network call is made). -/
theorem claim_C5 (env : String → Response) (d : ContentRow)
    (h : d.type = some CONTENT_TYPE_WEBSITE) :
    (html_element_from_content env d).val =
      .ok (some (CONTENT_CONTAINER "website"
        (WEBSITE_CONTENT_TEMPLATE (pyStr d.quote) (pyStr d.url)))) ∧
    (html_element_from_content env d).gets = [] := by
  simp +decide [html_element_from_content, h, CONTENT_TYPE_WEBSITE,
    CONTENT_TYPE_TWITTER, CONTENT_TYPE_INSTAGRAM, CONTENT_TYPES,
    EMBEDDED_CONTENT_TYPES, html_element_from_website_content]

/-- Witness for claim C5 on a website row with both url and quote absent: the
fragment interpolates the literal text `None` twice. -/
theorem claim_C5_witness :
    (html_element_from_content envFail404
      ⟨some CONTENT_TYPE_WEBSITE, none, none⟩).val =
      .ok (some (CONTENT_CONTAINER "website"
        (WEBSITE_CONTENT_TEMPLATE (pyStr none) (pyStr none)))) ∧
    (html_element_from_content envFail404
      ⟨some CONTENT_TYPE_WEBSITE, none, none⟩).gets = [] :=
  claim_C5 envFail404 ⟨some CONTENT_TYPE_WEBSITE, none, none⟩ rfl

/-- Claim C6 (counterexample): the claim states that on the rows
`[{type:website,url:"http://a.com",quote:"Great!"}, {type:foo,url:"x"}]` and
the template `"<html>%s</html>"` the program produces exactly the page
`<html><div class="content website"><span class="website-content">Great!</span>
<span class="website-url">http://a.com</span></span></div></html>` with the
second row dropped. In the source the second row's absent fragment is
appended to the element list and assembly calls `.replace` on it, so the run
aborts with `AttributeError` and produces no page at all (and the claimed
page also doubles the closing `</span>`, which the website templates never
emit). -/
theorem claim_C6_counterexample :
    main_run wExample ⟨none, none, none⟩ = .exception .attributeError ∧
    main_run wExample ⟨none, none, none⟩ ≠
      .success "index.html"
        "<html><div class=\"content website\"><span class=\"website-content\">Great!</span>\n<span class=\"website-url\">http://a.com</span></span></div></html>" := by
  refine ⟨by decide, by decide⟩

/-- Claim C6 (amended): on those input rows and that template, the first row's
fragment is
`<div class="content website"><span class="website-content">Great!</span>
<span class="website-url">http://a.com</span></div>` (a single closing
`</span>` before `</div>`), the second row yields no fragment, and the run
aborts with `AttributeError` during assembly instead of producing a page. -/
theorem claim_C6_amended :
    (html_element_from_content envFail404
      ⟨some "website", some "http://a.com", some "Great!"⟩).val =
      .ok (some "<div class=\"content website\"><span class=\"website-content\">Great!</span>\n<span class=\"website-url\">http://a.com</span></div>") ∧
    (html_element_from_content envFail404 ⟨some "foo", some "x", none⟩).val =
      .ok none ∧
    main_run wExample ⟨none, none, none⟩ = .exception .attributeError :=
  ⟨rfl, rfl, by decide⟩

/-- Claim C7: for a template made of a single `%s` placeholder between two
percent-free pieces and any list of produced fragments, the assembled page is
the template with the placeholder replaced by the fragments joined by a blank
line in order, each with its percent characters doubled; with zero fragments
the placeholder is replaced by the empty string. -/
theorem claim_C7 (pre post : String) (frags : List String)
    (hpre : '%' ∉ pre.data) (hpost : '%' ∉ post.data) :
    assemble_page (pre ++ "%s" ++ post) (frags.map some) =
      .ok (pre ++ String.intercalate "\n\n" (frags.map pctEscape) ++ post) ∧
    assemble_page (pre ++ "%s" ++ post) ([] : List (Option String)) =
      .ok (pre ++ "" ++ post) := by
  constructor
  · simp only [assemble_page, escapeAll_map_some]
    exact pythonFormatS_split pre post _ hpre hpost
  · have h0 : escapeAll ([] : List (Option String)) = .ok [] := rfl
    simp only [assemble_page, h0]
    exact pythonFormatS_split pre post "" hpre hpost

/-- Witness for claim C7: a percent character inside a fragment is doubled in
the output page. -/
theorem claim_C7_witness :
    assemble_page ("<html>" ++ "%s" ++ "</html>") (["a%b"].map some) =
      .ok ("<html>" ++ String.intercalate "\n\n" (["a%b"].map pctEscape) ++
        "</html>") :=
  (claim_C7 "<html>" "</html>" ["a%b"] (by decide) (by decide)).1

/-- Claim C8: the program is deterministic — two runs on the same world (same
files, same API responses) and the same arguments yield the same outcome,
byte for byte. -/
theorem claim_C8 (w : World) (args : Args) (r1 r2 : RunResult)
    (h1 : r1 = main_run w args) (h2 : r2 = main_run w args) : r1 = r2 :=
  h1.trans h2.symm

/-- Witness for claim C8 on a concrete world. -/
theorem claim_C8_witness :
    main_run wEmptyTable ⟨none, none, none⟩ =
      main_run wEmptyTable ⟨none, none, none⟩ :=
  claim_C8 wEmptyTable ⟨none, none, none⟩
    (main_run wEmptyTable ⟨none, none, none⟩)
    (main_run wEmptyTable ⟨none, none, none⟩) rfl rfl

/-- Claim C9 (code bug): the claim states that the assembled page is written
to the path supplied via the outfile flag and that the template is read from
the resolved template path, unaffected by that flag. In the source lines
164-165 assign `args.outfile` to `page_template_filepath` and never assign
`outfile_filepath`, so when the flag is given the template is read from the
outfile path (an `IOError` if that file does not exist) and the final
`open(outfile_filepath, 'w')` raises `NameError` — nothing is ever written. -/
theorem claim_C9_bug :
    main_run wOutfileExists ⟨some "c.csv", some "t.html", some "out.html"⟩ =
      .exception .nameError ∧
    main_run wOutfileMissing ⟨some "c.csv", some "t.html", some "out.html"⟩ =
      .exception .ioError :=
  ⟨by decide, by decide⟩

/-- Claim C10: invoked through the fragment-builder dispatch, the
`ValueError` branch of `html_element_from_embedded_content` is unreachable:
for every row and every environment, the per-row result is never a
`ValueError`. -/
theorem claim_C10 (env : String → Response) (d : ContentRow) (m : String) :
    (html_element_from_content env d).val ≠ .error (.valueError m) := by
  obtain ⟨t, u, q⟩ := d
  cases t with
  | none => simp [html_element_from_content, skipEff]
  | some ct =>
      by_cases h1 : ct = ""
      · simp [html_element_from_content, h1, skipEff]
      · by_cases h2 : ct ∈ CONTENT_TYPES
        · by_cases h3 : ct ∈ EMBEDDED_CONTENT_TYPES
          · cases u with
            | none => simp [html_element_from_content, h1, h2, h3, skipEff]
            | some uu =>
                by_cases h4 : uu = ""
                · simp [html_element_from_content, h1, h2, h3, h4, skipEff]
                · have h5 := embedded_content_no_valueError env uu ct m h3
                  have hval : (html_element_from_content env ⟨some ct, some uu, q⟩).val
                      = Except.map some (html_element_from_embedded_content env uu ct).val := by
                    simp [html_element_from_content, h1, h2, h3, h4]
                  rw [hval]
                  cases hv : (html_element_from_embedded_content env uu ct).val with
                  | error e =>
                      simp only [Except.map]
                      intro hc
                      have he : e = PyErr.valueError m := Except.error.inj hc
                      exact h5 (hv.trans (by rw [he]))
                  | ok x => simp [Except.map]
          · by_cases h6 : ct = CONTENT_TYPE_WEBSITE
            · simp +decide [html_element_from_content, h1, h6,
                CONTENT_TYPE_WEBSITE, CONTENT_TYPES, EMBEDDED_CONTENT_TYPES,
                CONTENT_TYPE_TWITTER, CONTENT_TYPE_INSTAGRAM]
            · simp [html_element_from_content, h1, h2, h3, h6]
        · simp [html_element_from_content, h1, h2, skipEff]
